import Mathlib

/-!
Shallow embedding of the ESP32 relay-control sketches (repository saad9122/esp32).

The repository holds four near-duplicate Arduino sketches:
* `src/unnamed/part_000` (first half): HTTP variant, relay controlled inline in
  `loop`, threshold fetched by `fetchThresholdValue` with a positivity check;
* `src/unnamed/part_000` (second half): MQTT variant whose `callback` updates the
  threshold unconditionally and re-evaluates the relay synchronously;
* `src/unnamed/part_001`: MQTT + WiFiManager variant with `reverseRelay` support;
* `src/deployed_website/deployed_website.ino`: MQTT variant with `reverseRelay`,
  remote WiFi-credential update and a bounded credential-hot-swap reconnect;
* `src/deployed_website.ino`: HTTP variant without caching of the MAC address.

Floats are embedded as rationals plus explicit NaN/infinity markers where NaN
behaviour matters (`safeValue`), and as plain rationals where only ordering
matters (temperatures and thresholds).  Side effects (digitalWrite, WiFi calls,
ESP.restart) are made explicit as an action log returned next to the new state.
-/

namespace Esp32

/-- Floating-point sample values as the sketches see them: not-a-number, a signed
infinity, or a finite value (embedded as a rational). -/
inductive FVal where
  | nan : FVal
  | inf (pos : Bool) : FVal
  | num (x : ℚ) : FVal
deriving DecidableEq, Repr

/-- Embedding of `isnan` from math.h: true exactly on the not-a-number value. -/
def isnanF : FVal → Bool
  | .nan => true
  | _ => false

/-- Embeds `safeValue` (identical in all four sketches):
`return isnan(value) ? 0.0 : value;`. -/
def safeValue (value : FVal) : FVal :=
  if isnanF value then .num 0 else value

/-- The two physical outputs the sketches drive (RELAY_PIN 5 and LED_PIN 2). -/
inductive Pin where
  | relay : Pin
  | led : Pin
deriving DecidableEq, Repr

/-- Observable side effects issued by the embedded code: a `digitalWrite` to one
of the two output pins, `WiFi.disconnect()`, `WiFi.begin(ssid, password)` with
the credential values passed, and `ESP.restart()` (present in part_001's setup). -/
inductive Action where
  | digitalWrite (p : Pin) (v : Bool) : Action
  | wifiDisconnect : Action
  | wifiBegin (ssid pw : String) : Action
  | restart : Action
deriving DecidableEq, Repr

/-- Relay state, as in the sketches' global `bool relayState`. -/
structure RelayState where
  isOn : Bool
deriving DecidableEq, Repr

/-- Embeds `updateRelayState` from src/unnamed/part_001 lines 128-135 and
src/deployed_website/deployed_website.ino lines 157-164:
`shouldRelayBeOn = reverseRelay ? (t < threshold) : (t >= threshold)`, followed
by a guarded write of both pins when the desired state differs from the current
one.  Returns the new relay state and the list of pin writes issued. -/
def updateRelayState (temperatureThreshold : ℚ) (reverseRelay : Bool)
    (temperature : ℚ) (s : RelayState) : RelayState × List Action :=
  let shouldRelayBeOn : Bool :=
    if reverseRelay then decide (temperature < temperatureThreshold)
    else decide (temperatureThreshold ≤ temperature)
  if shouldRelayBeOn ≠ s.isOn then
    (⟨shouldRelayBeOn⟩,
      [Action.digitalWrite Pin.relay shouldRelayBeOn,
       Action.digitalWrite Pin.led shouldRelayBeOn])
  else (s, [])

/-- Embeds the relay logic of src/unnamed/part_000 (both in `loop`, lines
156-164, and in `updateRelayState`, lines 284-294) and of
src/deployed_website.ino lines 134-142:
`if (t >= threshold && relayState) { write LOW; relayState = false; }
else if (t < threshold && !relayState) { write HIGH; relayState = true; }`. -/
def updateRelayState000 (temperatureThreshold : ℚ) (temperature : ℚ)
    (s : RelayState) : RelayState × List Action :=
  if temperatureThreshold ≤ temperature ∧ s.isOn = true then
    (⟨false⟩,
      [Action.digitalWrite Pin.relay false, Action.digitalWrite Pin.led false])
  else if temperature < temperatureThreshold ∧ s.isOn = false then
    (⟨true⟩,
      [Action.digitalWrite Pin.relay true, Action.digitalWrite Pin.led true])
  else (s, [])

/-- The spec's transition rule of section 4.3, written from the spec's words for
comparison with the source embeddings:
`desiredOn = reversePolarity ? (t < threshold) : (t >= threshold)`. -/
def specDesiredOn (reversePolarity : Bool) (threshold t : ℚ) : Bool :=
  if reversePolarity then decide (t < threshold) else decide (t ≥ threshold)

/-- An inbound settings message after JSON field extraction: each field is
`some v` when the key is present (with `v` the value the ArduinoJson accessors
would produce) and `none` when absent.  This mirrors
`doc.containsKey(...)` / `doc[...]` in the three MQTT callbacks. -/
structure ConfigMsg where
  deviceId : Option String
  threshold : Option ℚ
  reverseRelay : Option Bool
  ssid : Option String
  password : Option String
deriving DecidableEq, Repr

/-- The settings globals of src/unnamed/part_001 that its `callback` may touch:
`temperatureThreshold` and `reverseRelay`. -/
structure Settings001 where
  temperatureThreshold : ℚ
  reverseRelay : Bool
deriving DecidableEq, Repr

/-- Embeds `callback` from src/unnamed/part_001 lines 102-126.  `msg` is the
result of `deserializeJson` on the payload (`none` on a parse error),
`identity` is `getMACAddress()`, `topicIsSettings` is
`strcmp(topic, MQTT_TOPIC_SETTINGS) == 0`.  When the message is addressed to
this device and arrives on the settings topic, a present `threshold` key
overwrites `temperatureThreshold` unconditionally and a present `reverseRelay`
key overwrites `reverseRelay`; otherwise the globals are untouched. -/
def callback001 (identity : String) (topicIsSettings : Bool)
    (msg : Option ConfigMsg) (s : Settings001) : Settings001 :=
  match msg with
  | none => s
  | some m =>
    match m.deviceId with
    | none => s
    | some targetDeviceId =>
      if targetDeviceId = identity then
        if topicIsSettings then
          let s1 := match m.threshold with
            | some th => { s with temperatureThreshold := th }
            | none => s
          match m.reverseRelay with
          | some r => { s1 with reverseRelay := r }
          | none => s1
        else s
      else s

/-- Embeds `fetchThresholdValue` from src/unnamed/part_000 lines 37-67.  The
`response` argument is the numeric value of the GET response body
(`response.toFloat`), or `none` when WiFi was down or the HTTP request failed
(both paths return without touching the threshold).  The new value is stored
only when `newThreshold > 0`. -/
def fetchThresholdValue (response : Option ℚ) (temperatureThreshold : ℚ) : ℚ :=
  match response with
  | none => temperatureThreshold
  | some newThreshold =>
    if 0 < newThreshold then newThreshold else temperatureThreshold

/-- The globals of the MQTT half of src/unnamed/part_000 that its `callback`
may touch: the threshold and (through `updateRelayState`) the relay state. -/
structure State000 where
  temperatureThreshold : ℚ
  relayState : Bool
deriving DecidableEq, Repr

/-- Embeds `callback` from src/unnamed/part_000 lines 259-282.  On an addressed
message whose `threshold` key is present, the threshold is overwritten
unconditionally and `updateRelayState(sensor.getTempCByIndex(0))` is invoked
immediately, inside the servicing step; `currentTemp` is that sensor read. -/
def callback000 (identity : String) (currentTemp : ℚ)
    (msg : Option ConfigMsg) (s : State000) : State000 × List Action :=
  match msg with
  | none => (s, [])
  | some m =>
    match m.deviceId with
    | none => (s, [])
    | some targetDeviceId =>
      if targetDeviceId = identity then
        match m.threshold with
        | some th =>
          let s1 : State000 := { s with temperatureThreshold := th }
          let r := updateRelayState000 s1.temperatureThreshold currentTemp ⟨s1.relayState⟩
          ({ s1 with relayState := r.1.isOn }, r.2)
        | none => (s, [])
      else (s, [])

/-- Embeds `strlcpy(dst, src, size)` into a `char dst[size]` buffer: the stored
string is the first `size - 1` characters of `src` (the remaining byte holds
the terminator). -/
def strlcpy (src : String) (size : Nat) : String :=
  String.mk (src.toList.take (size - 1))

/-- The globals of src/deployed_website/deployed_website.ino that its
`callback` may touch, plus the WiFi link status it may change through the
credential hot-swap: `temperatureThreshold`, `reverseRelay`, the `char ssid[32]`
and `char password[32]` buffers, and whether `WiFi.status() == WL_CONNECTED`. -/
structure DState where
  temperatureThreshold : ℚ
  reverseRelay : Bool
  ssid : String
  password : String
  wifiConnected : Bool
deriving DecidableEq, Repr

/-- Embeds `callback` from src/deployed_website/deployed_website.ino lines
87-154.  `msg` is the result of `deserializeJson` (`none` on a parse error);
`wifiReconnects` tells whether, in the credential-hot-swap branch,
`WiFi.status()` reaches `WL_CONNECTED` within the 10-second wait.  A present
`threshold`/`reverseRelay` key overwrites unconditionally; a present `ssid` or
`password` is copied (via `strlcpy` into the 32-byte buffer) only when it
differs from the stored value, and any such copy triggers
`WiFi.disconnect(); WiFi.begin(ssid, password)` with the updated globals.  On
timeout the code only logs: no revert, no restart. -/
def callbackDep (identity : String) (topicIsSettings : Bool)
    (wifiReconnects : Bool) (msg : Option ConfigMsg) (s : DState) :
    DState × List Action :=
  match msg with
  | none => (s, [])
  | some m =>
    match m.deviceId with
    | none => (s, [])
    | some targetDeviceId =>
      if targetDeviceId = identity then
        if topicIsSettings then
          let s1 := match m.threshold with
            | some th => { s with temperatureThreshold := th }
            | none => s
          let s2 := match m.reverseRelay with
            | some r => { s1 with reverseRelay := r }
            | none => s1
          let p3 := match m.ssid with
            | some newSsid =>
              if newSsid ≠ s2.ssid then
                ({ s2 with ssid := strlcpy newSsid 32 }, true)
              else (s2, false)
            | none => (s2, false)
          let p4 := match m.password with
            | some newPassword =>
              if newPassword ≠ p3.1.password then
                ({ p3.1 with password := strlcpy newPassword 32 }, true)
              else (p3.1, false)
            | none => (p3.1, false)
          if p3.2 || p4.2 then
            ({ p4.1 with wifiConnected := wifiReconnects },
              [Action.wifiDisconnect, Action.wifiBegin p4.1.ssid p4.1.password])
          else (p4.1, [])
        else (s, [])
      else (s, [])

/-- Models a later `WiFi.begin(ssid, password)` call at state `s`: every call
site in src/deployed_website/deployed_website.ino (setup line 213, callback
line 133) reads the credential globals, so an attempt at state `s` carries
`s.ssid` and `s.password`. -/
def reconnectAttempt (s : DState) : Action :=
  Action.wifiBegin s.ssid s.password

/-- One uppercase hexadecimal digit, as produced by the `%02X` conversion. -/
def hexChar (n : Nat) : Char :=
  if n < 10 then Char.ofNat (48 + n) else Char.ofNat (55 + n)

/-- Two uppercase hexadecimal digits for one byte, as `%02X` prints a value in
0..255. -/
def hexByte (n : Nat) : List Char :=
  [hexChar (n / 16 % 16), hexChar (n % 16)]

/-- The six bytes returned by `WiFi.macAddress(mac)`. -/
structure Mac where
  b0 : Nat
  b1 : Nat
  b2 : Nat
  b3 : Nat
  b4 : Nat
  b5 : Nat
deriving DecidableEq, Repr

/-- The string built by
`snprintf(macStr, 18, "%02X:%02X:%02X:%02X:%02X:%02X", ...)`: twelve uppercase
hex digits separated by colons. -/
def formatMac (m : Mac) : String :=
  String.mk (hexByte m.b0 ++ [':'] ++ hexByte m.b1 ++ [':'] ++ hexByte m.b2 ++
    [':'] ++ hexByte m.b3 ++ [':'] ++ hexByte m.b4 ++ [':'] ++ hexByte m.b5)

/-- Embeds the caching `getMACAddress` of src/unnamed/part_000 lines 222-232,
src/unnamed/part_001 lines 49-69 and
src/deployed_website/deployed_website.ino lines 50-60: the formatted address is
computed from the hardware only while the `deviceId` global is still empty,
then served from the cache.  `deviceId` is the cache value before the call; the
result is (returned string, cache after the call, number of hardware
`WiFi.macAddress` reads performed). -/
def getMACAddressCached (mac : Mac) (deviceId : String) : String × String × Nat :=
  if deviceId.length = 0 then
    (formatMac mac, formatMac mac, 1)
  else (deviceId, deviceId, 0)

/-- Embeds `getMACAddress` from src/deployed_website.ino lines 35-42: no cache
variable exists, so every call reads the hardware address and formats it anew.
The result is (returned string, number of hardware reads in this call). -/
def getMACAddressUncached (mac : Mac) : String × Nat :=
  (formatMac mac, 1)

/-- Two successive calls of the uncached `getMACAddress` within one process
lifetime (the MAC bytes are fixed hardware, hence the same argument). -/
def uncachedTwoCalls (mac : Mac) : (String × Nat) × (String × Nat) :=
  (getMACAddressUncached mac, getMACAddressUncached mac)

/-- The state touched by one iteration of `loop` in src/unnamed/part_001 lines
212-238, restricted to the settings globals and the relay state. -/
structure Loop001State where
  settings : Settings001
  relay : RelayState
deriving DecidableEq, Repr

/-- Embeds the relay-relevant part of one `loop` iteration of
src/unnamed/part_001 lines 212-238: `client.loop()` services at most one
pending settings message through `callback001`, then `updateRelayState(tempC)`
runs with the (possibly updated) settings.  Publishing and reconnects issue no
pin writes and are omitted from the action log. -/
def loop001 (identity : String) (msg : Option ConfigMsg) (tempC : ℚ)
    (s : Loop001State) : Loop001State × List Action :=
  let settings1 := callback001 identity true msg s.settings
  let r := updateRelayState settings1.temperatureThreshold settings1.reverseRelay
    tempC s.relay
  (⟨settings1, r.1⟩, r.2)

/-- True when the action list contains a `digitalWrite` to an output pin. -/
def writesPins (l : List Action) : Bool :=
  l.any fun a => match a with
    | Action.digitalWrite _ _ => true
    | _ => false

/-- Closed form of the part_001 / deployed_website relay transition: it is the
identity when the spec relation already holds of the current state, and
otherwise moves to the desired state writing both pins once. -/
theorem updateRelayState_eq (thr : ℚ) (rev : Bool) (t : ℚ) (s : RelayState) :
    updateRelayState thr rev t s =
      if specDesiredOn rev thr t = s.isOn then (s, [])
      else (⟨specDesiredOn rev thr t⟩,
        [Action.digitalWrite Pin.relay (specDesiredOn rev thr t),
         Action.digitalWrite Pin.led (specDesiredOn rev thr t)]) := by
  rcases s with ⟨b⟩
  rcases lt_or_le t thr with h | h
  · cases rev <;> cases b <;>
      simp [updateRelayState, specDesiredOn, h, h.not_le, ge_iff_le]
  · cases rev <;> cases b <;>
      simp [updateRelayState, specDesiredOn, h, h.not_lt, ge_iff_le]

/-- Closed form of the part_000 relay logic: the post-state is `t < thr`
regardless of the previous state, with the two pins written exactly when the
state changes. -/
theorem updateRelayState000_eq (thr t : ℚ) (s : RelayState) :
    updateRelayState000 thr t s =
      if decide (t < thr) = s.isOn then (s, [])
      else (⟨decide (t < thr)⟩,
        [Action.digitalWrite Pin.relay (decide (t < thr)),
         Action.digitalWrite Pin.led (decide (t < thr))]) := by
  rcases s with ⟨b⟩
  rcases lt_or_le t thr with h | h
  · cases b <;> simp [updateRelayState000, h, h.not_le]
  · cases b <;> simp [updateRelayState000, h, h.not_lt]

/-- C1, counterexample: in the part_000 relay logic, at temperature exactly
equal to the threshold (t = threshold = 25) the relay is driven off, while the
claimed relation with `reversePolarity` false demands on at boundary
equality. -/
theorem C1_counterexample :
    (updateRelayState000 25 25 ⟨true⟩).1.isOn = false ∧
    specDesiredOn false 25 25 = true := by
  decide

/-- C1, amended: in the variants carrying a `reverseRelay` flag (part_001 and
deployed_website/deployed_website.ino) the relay machine's resulting state
equals the claimed relation
`desiredOn = reversePolarity ? (t < threshold) : (t >= threshold)`, boundary
equality included; the part_000 and deployed_website.ino relay logic has no
polarity flag and realizes the fixed relation `desiredOn = (t < threshold)`,
so at t = threshold it drives the relay off. -/
theorem C1_relay_rule (thr t : ℚ) (rev : Bool) (s s0 : RelayState) :
    (updateRelayState thr rev t s).1.isOn = specDesiredOn rev thr t ∧
    (updateRelayState000 thr t s0).1.isOn = decide (t < thr) := by
  constructor
  · rw [updateRelayState_eq]
    split
    · simp_all
    · rfl
  · rw [updateRelayState000_eq]
    split
    · simp_all
    · rfl

/-- C3: re-running the part_001 / deployed_website relay transition with the
temperature and configuration unchanged is a no-op — the combined write log of
two consecutive runs is a single atomic pair of pin writes when the desired
state differs from the current one and is empty otherwise, the second run
writes nothing and leaves the state fixed, and the first run issues a write
exactly when the desired state differs from the current `isOn`. -/
theorem C3_relay_idempotent (thr t : ℚ) (rev : Bool) (s : RelayState) :
    ((updateRelayState thr rev t s).2 ++
        (updateRelayState thr rev t (updateRelayState thr rev t s).1).2 =
      if specDesiredOn rev thr t = s.isOn then []
      else [Action.digitalWrite Pin.relay (specDesiredOn rev thr t),
            Action.digitalWrite Pin.led (specDesiredOn rev thr t)]) ∧
    (updateRelayState thr rev t (updateRelayState thr rev t s).1).2 = [] ∧
    (updateRelayState thr rev t (updateRelayState thr rev t s).1).1 =
      (updateRelayState thr rev t s).1 ∧
    ((updateRelayState thr rev t s).2 = [] ↔ specDesiredOn rev thr t = s.isOn) := by
  rw [updateRelayState_eq thr rev t s]
  by_cases h : specDesiredOn rev thr t = s.isOn
  · simp only [h, if_pos rfl, updateRelayState_eq]
    simp [h]
  · simp only [if_neg h]
    rw [updateRelayState_eq]
    simp [h]

/-- C9: `safeValue` maps the not-a-number sample to 0.0 and leaves every other
sample — in particular every finite one — unchanged; it is a pure function of
its argument. -/
theorem C9_sanitize (x : ℚ) (b : Bool) :
    safeValue FVal.nan = FVal.num 0 ∧
    safeValue (FVal.num x) = FVal.num x ∧
    safeValue (FVal.inf b) = FVal.inf b :=
  ⟨rfl, rfl, rfl⟩

/-- C2, counterexample: the part_001 settings callback overwrites the threshold
with a non-positive value — an addressed message carrying threshold -5 moves
the stored threshold from 25 to -5, which the claim forbids. -/
theorem C2_counterexample :
    (callback001 "AA" true (some ⟨some "AA", some (-5), none, none, none⟩)
      ⟨25, false⟩).temperatureThreshold = -5 ∧
    ¬ (0 : ℚ) < -5 ∧ (-5 : ℚ) ≠ 25 := by
  decide

/-- C2, amended: the HTTP variant's `fetchThresholdValue` overwrites the
threshold only when the fetched value is positive and keeps the prior value on
a failed fetch or a non-positive value, while the part_001 MQTT callback
overwrites the threshold unconditionally whenever the field is present in an
addressed settings message (any value, positive or not) and keeps the prior
value when the field is absent. -/
theorem C2_threshold_update (th cur : ℚ) (rev : Bool) (s : Settings001)
    (id : String) :
    fetchThresholdValue none cur = cur ∧
    fetchThresholdValue (some th) cur = (if 0 < th then th else cur) ∧
    (callback001 id true (some ⟨some id, some th, none, none, none⟩)
      s).temperatureThreshold = th ∧
    (callback001 id true (some ⟨some id, none, some rev, none, none⟩)
      s).temperatureThreshold = s.temperatureThreshold := by
  refine ⟨rfl, rfl, ?_, ?_⟩ <;> simp [callback001]

/-- C4: all three discard paths of the settings callbacks — unparsable payload,
absent `deviceId`, `deviceId` different from this device's identity — leave
every configuration field untouched and issue no side effect at all (no pin
write, no WiFi action), in both the deployed_website and the part_000 MQTT
variants. -/
theorem C4_discard_invalid (id : String) (topicS w : Bool) (s : DState)
    (s0 : State000) (tmp : ℚ) (m : ConfigMsg) :
    callbackDep id topicS w none s = (s, []) ∧
    callback000 id tmp none s0 = (s0, []) ∧
    (m.deviceId = none →
      callbackDep id topicS w (some m) s = (s, []) ∧
      callback000 id tmp (some m) s0 = (s0, [])) ∧
    (∀ d, m.deviceId = some d → d ≠ id →
      callbackDep id topicS w (some m) s = (s, []) ∧
      callback000 id tmp (some m) s0 = (s0, [])) := by
  refine ⟨rfl, rfl, fun h => ?_, fun d hd hne => ?_⟩
  · constructor <;> simp [callbackDep, callback000, h]
  · constructor <;> simp [callbackDep, callback000, hd, hne]

/-- C4, witness: a concrete message addressed to device BB is discarded whole
by device AA's deployed_website callback. -/
theorem C4_discard_invalid_witness :
    callbackDep "AA" true true (some ⟨some "BB", some 30, none, none, none⟩)
      ⟨25, false, "net", "pw", true⟩ = (⟨25, false, "net", "pw", true⟩, []) :=
  ((C4_discard_invalid "AA" true true ⟨25, false, "net", "pw", true⟩ ⟨25, false⟩
    20 ⟨some "BB", some 30, none, none, none⟩).2.2.2 "BB" rfl (by decide)).1

/-- C5, counterexample: in the part_000 MQTT variant, servicing an addressed
settings message that raises the threshold from 25 to 30 at current
temperature 26 writes both output pins inside the servicing step itself —
config changes are not deferred to the next cycle there. -/
theorem C5_counterexample :
    (callback000 "AA" 26 (some ⟨some "AA", some 30, none, none, none⟩)
      ⟨25, false⟩).2 =
      [Action.digitalWrite Pin.relay true, Action.digitalWrite Pin.led true] := by
  decide

/-- C5, amended: in the deployed_website variant the settings callback never
writes an output pin for any input (only the credential-hot-swap WiFi actions
are issued synchronously), and in part_001 the pin writes of a loop iteration
are exactly those of the relay evaluation run after message servicing, at the
serviced settings — so a configuration change reaches the outputs no earlier
than that next relay evaluation; in the part_000 MQTT variant, however, a
threshold update re-evaluates and may write the relay synchronously inside the
servicing step. -/
theorem C5_config_deferred (id : String) (topicS w : Bool)
    (msg : Option ConfigMsg) (s : DState) (ls : Loop001State) (t : ℚ) :
    writesPins (callbackDep id topicS w msg s).2 = false ∧
    (loop001 id msg t ls).2 =
      (updateRelayState (callback001 id true msg ls.settings).temperatureThreshold
        (callback001 id true msg ls.settings).reverseRelay t ls.relay).2 := by
  constructor
  · rcases msg with _ | m
    · rfl
    · rcases m with ⟨_ | d, th, rr, ns, np⟩
      · rfl
      · by_cases hd : d = id
        · simp only [callbackDep, hd, if_pos rfl]
          by_cases ht : topicS
          · simp only [if_pos ht]
            rcases th with _ | thv <;> rcases rr with _ | rv <;>
              rcases ns with _ | nsv <;> rcases np with _ | npv <;>
                simp [writesPins] <;> split <;> simp [writesPins] <;>
                  split <;> simp [writesPins]
          · simp [ht, writesPins]
        · simp [callbackDep, hd, writesPins]
  · rfl

/-- Value a credential buffer holds after the deployed_website callback has
processed one optional credential field against the stored value `stored`. -/
def newCred (stored : String) : Option String → String
  | some v => if v ≠ stored then strlcpy v 32 else stored
  | none => stored

/-- Whether the deployed_website callback counts an optional credential field
as an update (present and different from the stored value). -/
def credUpdated (stored : String) : Option String → Bool
  | some v => decide (v ≠ stored)
  | none => false

/-- Closed form of the deployed_website callback on an addressed settings
message: threshold and polarity are overwritten when present, each credential
is copied through `strlcpy` only when present and different, and the hot-swap
actions fire exactly when some credential was copied. -/
theorem callbackDep_closed (id : String) (w : Bool) (m : ConfigMsg) (s : DState)
    (hdev : m.deviceId = some id) :
    callbackDep id true w (some m) s =
      (⟨m.threshold.getD s.temperatureThreshold,
        m.reverseRelay.getD s.reverseRelay,
        newCred s.ssid m.ssid,
        newCred s.password m.password,
        if credUpdated s.ssid m.ssid || credUpdated s.password m.password then w
        else s.wifiConnected⟩,
       if credUpdated s.ssid m.ssid || credUpdated s.password m.password then
         [Action.wifiDisconnect,
          Action.wifiBegin (newCred s.ssid m.ssid) (newCred s.password m.password)]
       else []) := by
  rcases m with ⟨dOpt, th, rr, nsOpt, npOpt⟩
  cases hdev
  rcases s with ⟨sth, srv, sss, spw, swc⟩
  rcases nsOpt with _ | nsv <;> rcases npOpt with _ | npv <;>
    rcases th with _ | thv <;> rcases rr with _ | rv
  all_goals simp only [callbackDep, newCred, credUpdated, Option.getD]
  all_goals try by_cases hns : nsv = sss
  all_goals try by_cases hnp : npv = spw
  all_goals simp_all

/-- Bound on the stored credential length after a `strlcpy` into a buffer of
`size` bytes: at most `size - 1` characters are kept. -/
theorem strlcpy_length_le (src : String) (size : Nat) :
    (strlcpy src size).length ≤ size - 1 := by
  show (src.toList.take (size - 1)).length ≤ size - 1
  rw [List.length_take]
  exact min_le_left _ _

/-- C6: whenever the credential-hot-swap fires — the addressed settings
message carries a new ssid, a new password, or both — and the reconnection
times out (`wifiReconnects = false`), the link is left down, no restart is
issued, each credential that carried a new value stores that new value
(truncated by `strlcpy`, never reverted to the previous one), each credential
without a new value keeps its stored value, the hot-swap itself attempted
`WiFi.begin` with exactly the stored-after credentials, and a later reconnect
attempt at the resulting state again carries those new credentials. -/
theorem C6_hotswap_timeout (id : String) (s : DState) (m : ConfigMsg)
    (hdev : m.deviceId = some id)
    (hswap : (∃ v, m.ssid = some v ∧ v ≠ s.ssid) ∨
      (∃ v, m.password = some v ∧ v ≠ s.password)) :
    (callbackDep id true false (some m) s).1.wifiConnected = false ∧
    Action.restart ∉ (callbackDep id true false (some m) s).2 ∧
    (∀ v, m.ssid = some v → v ≠ s.ssid →
      (callbackDep id true false (some m) s).1.ssid = strlcpy v 32) ∧
    (∀ v, m.ssid = some v → v = s.ssid →
      (callbackDep id true false (some m) s).1.ssid = s.ssid) ∧
    (m.ssid = none → (callbackDep id true false (some m) s).1.ssid = s.ssid) ∧
    (∀ v, m.password = some v → v ≠ s.password →
      (callbackDep id true false (some m) s).1.password = strlcpy v 32) ∧
    (∀ v, m.password = some v → v = s.password →
      (callbackDep id true false (some m) s).1.password = s.password) ∧
    (m.password = none →
      (callbackDep id true false (some m) s).1.password = s.password) ∧
    (callbackDep id true false (some m) s).2 =
      [Action.wifiDisconnect,
       Action.wifiBegin (callbackDep id true false (some m) s).1.ssid
         (callbackDep id true false (some m) s).1.password] ∧
    reconnectAttempt (callbackDep id true false (some m) s).1 =
      Action.wifiBegin (callbackDep id true false (some m) s).1.ssid
        (callbackDep id true false (some m) s).1.password := by
  have hfire : (credUpdated s.ssid m.ssid || credUpdated s.password m.password)
      = true := by
    rcases hswap with ⟨v, hv, hne⟩ | ⟨v, hv, hne⟩ <;>
      simp [credUpdated, hv, hne]
  rw [callbackDep_closed id false m s hdev]
  refine ⟨by simp [hfire], by simp [hfire], ?_, ?_, ?_, ?_, ?_, ?_,
    by simp [hfire], by simp [hfire, reconnectAttempt]⟩
  · intro v hv hne
    simp [hfire, newCred, hv, hne]
  · intro v hv he
    simp [hfire, newCred, hv, he]
  · intro hv
    simp [hfire, newCred, hv]
  · intro v hv hne
    simp [hfire, newCred, hv, hne]
  · intro v hv he
    simp [hfire, newCred, hv, he]
  · intro hv
    simp [hfire, newCred, hv]

/-- C6, witness: device AA receives a message swapping only the password from
pw to newpw, the 10-second wait fails, and the stored password afterwards is
the new value, not pw. -/
theorem C6_hotswap_timeout_witness :
    (callbackDep "AA" true false
      (some ⟨some "AA", none, none, none, some "newpw"⟩)
      ⟨25, false, "oldnet", "pw", true⟩).1.password = strlcpy "newpw" 32 :=
  (C6_hotswap_timeout "AA" ⟨25, false, "oldnet", "pw", true⟩
    ⟨some "AA", none, none, none, some "newpw"⟩ rfl
    (Or.inr ⟨"newpw", rfl, by decide⟩)).2.2.2.2.2.1 "newpw" rfl (by decide)

/-- C7: an addressed settings message whose ssid equals the stored ssid (and
whose password, when present, equals the stored password) triggers no
`WiFi.disconnect`/`WiFi.begin` at all and leaves both stored credentials and
the link status unchanged, whatever threshold or polarity it also carries. -/
theorem C7_no_spurious_reconnect (id : String) (w : Bool) (s : DState)
    (m : ConfigMsg) (hdev : m.deviceId = some id) (hssid : m.ssid = some s.ssid)
    (hpw : m.password = none ∨ m.password = some s.password) :
    (callbackDep id true w (some m) s).2 = [] ∧
    (callbackDep id true w (some m) s).1.ssid = s.ssid ∧
    (callbackDep id true w (some m) s).1.password = s.password ∧
    (callbackDep id true w (some m) s).1.wifiConnected = s.wifiConnected := by
  rw [callbackDep_closed id w m s hdev]
  rcases hpw with hpw | hpw <;> simp [newCred, credUpdated, hssid, hpw]

/-- C7, witness: a message repeating the stored ssid (with a new threshold)
causes no WiFi action on device AA. -/
theorem C7_no_spurious_reconnect_witness :
    (callbackDep "AA" true true
      (some ⟨some "AA", some 30, none, some "oldnet", none⟩)
      ⟨25, false, "oldnet", "pw", true⟩).2 = [] :=
  (C7_no_spurious_reconnect "AA" true ⟨25, false, "oldnet", "pw", true⟩
    ⟨some "AA", some 30, none, some "oldnet", none⟩ rfl rfl (Or.inl rfl)).1

/-- C10: an addressed settings message carrying an ssid or password longer
than 31 characters leaves, after the callback, exactly the first 31 characters
of the received string in the corresponding 32-byte buffer (silent truncation,
no overflow): the stored credential equals the 31-character prefix and its
length stays within the buffer.  The stored buffers are assumed within their
31-character capacity beforehand, which every reachable state satisfies. -/
theorem C10_truncation (id : String) (w : Bool) (s : DState) (m : ConfigMsg)
    (ns np : String) (hs : s.ssid.length ≤ 31) (hp : s.password.length ≤ 31)
    (hdev : m.deviceId = some id) :
    (m.ssid = some ns → 31 < ns.length →
      (callbackDep id true w (some m) s).1.ssid = String.mk (ns.toList.take 31) ∧
      (callbackDep id true w (some m) s).1.ssid.length ≤ 31) ∧
    (m.password = some np → 31 < np.length →
      (callbackDep id true w (some m) s).1.password =
        String.mk (np.toList.take 31) ∧
      (callbackDep id true w (some m) s).1.password.length ≤ 31) := by
  rw [callbackDep_closed id w m s hdev]
  constructor
  · intro hns hlen
    have hne : ns ≠ s.ssid := by
      intro he
      have hl : ns.length = s.ssid.length := by rw [he]
      omega
    constructor
    · simp [newCred, hns, hne, strlcpy]
    · simp only [newCred, hns, hne, if_pos, ite_not]
      have := strlcpy_length_le ns 32
      simp_all [hne]
  · intro hnp hlen
    have hne : np ≠ s.password := by
      intro he
      have hl : np.length = s.password.length := by rw [he]
      omega
    constructor
    · simp [newCred, hnp, hne, strlcpy]
    · simp only [newCred, hnp, hne, if_pos, ite_not]
      have := strlcpy_length_le np 32
      simp_all [hne]

/-- C10, witness: a 36-character ssid sent to device AA is stored as its
31-character prefix. -/
theorem C10_truncation_witness :
    (callbackDep "AA" true true
      (some ⟨some "AA", none, none,
        some "abcdefghijklmnopqrstuvwxyz0123456789", none⟩)
      ⟨25, false, "oldnet", "pw", true⟩).1.ssid =
      String.mk ("abcdefghijklmnopqrstuvwxyz0123456789".toList.take 31) :=
  ((C10_truncation "AA" true ⟨25, false, "oldnet", "pw", true⟩
    ⟨some "AA", none, none,
      some "abcdefghijklmnopqrstuvwxyz0123456789", none⟩
    "abcdefghijklmnopqrstuvwxyz0123456789" "pw" (by decide) (by decide)
    rfl).1 rfl (by decide)).1

/-- Length of one formatted MAC address: six two-digit bytes and five colons. -/
theorem formatMac_length (m : Mac) : (formatMac m).length = 17 :=
  rfl

/-- C8, counterexample: in the src/deployed_website.ino variant the second of
two successive `getMACAddress()` calls still performs a hardware
`WiFi.macAddress` read (its read count is not zero), so the value is not
cached after the first derivation. -/
theorem C8_counterexample :
    ((uncachedTwoCalls ⟨170, 187, 204, 221, 238, 255⟩).2).2 ≠ 0 := by
  decide

/-- C8, amended: the caching `getMACAddress` variants return the formatted
address on the first call, return the identical string on a second call within
the same process, and perform no hardware read once the cache is filled; the
src/deployed_website.ino variant also returns the same string on every call
(the MAC bytes are fixed) but re-reads the hardware address on each call. -/
theorem C8_identity_stable (mac : Mac) :
    (getMACAddressCached mac "").1 = formatMac mac ∧
    (getMACAddressCached mac (getMACAddressCached mac "").2.1).1 =
      (getMACAddressCached mac "").1 ∧
    (getMACAddressCached mac (getMACAddressCached mac "").2.1).2.2 = 0 ∧
    ((uncachedTwoCalls mac).1).1 = ((uncachedTwoCalls mac).2).1 ∧
    ((uncachedTwoCalls mac).2).2 = 1 := by
  have h0 : ¬ (formatMac mac).length = 0 := by
    rw [formatMac_length]
    omega
  refine ⟨rfl, ?_, ?_, rfl, rfl⟩ <;>
    simp [getMACAddressCached, h0]

end Esp32
